import Mathlib

/-!
Verification of `start-server.py`, a static demo HTTP server.

The script configures a port, changes the working directory to the
directory containing the script, registers a header-injection override
of the base handler, and handles two startup errors (port in use,
manual interrupt).  We embed the script's own code directly; the base
file-serving behavior it inherits from the standard library handler
(path translation, file lookup, not-found responses) is not part of
this repository and is modelled from the specification where needed.
-/

/-- The fixed listen port constant (`PORT = 8000`, line 18 of the source). -/
def PORT : Nat := 8000

/-- State of a request handler while it emits response headers: the
buffer of headers not yet flushed to the wire, and the headers already
written to the connection.  Mirrors the buffering the base handler
performs: each header sent is appended to a buffer, and finishing the
header section flushes the buffer to the wire. -/
structure HandlerState where
  headers_buffer : List (String × String)
  wfile : List (String × String)
deriving DecidableEq

/-- A handler before any header has been sent. -/
def initialState : HandlerState := ⟨[], []⟩

/-- Modelled from the spec: the base handler's `send_header` appends one
name/value pair to the header buffer. -/
def send_header (s : HandlerState) (keyword value : String) : HandlerState :=
  ⟨s.headers_buffer ++ [(keyword, value)], s.wfile⟩

/-- Modelled from the spec: the base handler's `end_headers` flushes the
buffered headers to the wire, closing the header section. -/
def base_end_headers (s : HandlerState) : HandlerState :=
  ⟨[], s.wfile ++ s.headers_buffer⟩

/-- `MyHTTPRequestHandler.end_headers` (lines 21-26 of the source):
send the three CORS/cache headers, then defer to the base
`end_headers`. -/
def MyHTTPRequestHandler.end_headers (s : HandlerState) : HandlerState :=
  base_end_headers
    (send_header
      (send_header
        (send_header s "Access-Control-Allow-Origin" "*")
        "Access-Control-Allow-Methods" "GET")
      "Cache-Control" "no-store, no-cache, must-revalidate")

/-- The three header pairs injected by `MyHTTPRequestHandler.end_headers`,
in the order they are sent. -/
def injectedHeaders : List (String × String) :=
  [ ("Access-Control-Allow-Origin", "*")
  , ("Access-Control-Allow-Methods", "GET")
  , ("Cache-Control", "no-store, no-cache, must-revalidate") ]

/-- Send a list of base headers in order (each via `send_header`). -/
def sendHeaders (s : HandlerState) (hs : List (String × String)) : HandlerState :=
  hs.foldl (fun a h => send_header a h.1 h.2) s

/-- An HTTP response: status code, the header pairs as written to the
wire, and the body bytes. -/
structure Response where
  status : Nat
  headers : List (String × String)
  body : List Nat
deriving DecidableEq

/-- Assemble a response the way the handler does: the base behavior
sends its headers into the buffer, then calls `end_headers`, which is
the override of lines 21-26; the wire then holds the final header
section. -/
def respond (status : Nat) (baseHeaders : List (String × String)) (body : List Nat) : Response :=
  let s := MyHTTPRequestHandler.end_headers (sendHeaders initialState baseHeaders)
  ⟨status, s.wfile, body⟩

/-- Split a character list on a separator character. -/
def splitOnChar (c : Char) : List Char → List (List Char)
  | [] => [[]]
  | x :: xs =>
      let r := splitOnChar c xs
      if x = c then [] :: r
      else
        match r with
        | [] => [x] :: []
        | y :: ys => (x :: y) :: ys

/-- Modelled from the spec: the base handler's path translation maps a
request path to a filesystem path under the server root.  Query and
fragment are cut off, the path is split on slashes, and every component
that is empty, the current directory, or the parent directory is
discarded, so only simple names are joined onto the root. -/
def translate_path (root : List String) (path : String) : List String :=
  let trimmed := path.toList.takeWhile (fun ch => ch != '?' && ch != '#')
  let words := (splitOnChar '/' trimmed).map (fun w => String.mk w)
  words.foldl
    (fun acc word =>
      if word = "" ∨ word = "." ∨ word = ".." then acc else acc ++ [word])
    root

/-- Modelled from the spec: content-type guessing of the base handler,
reduced to the distinction the demo pages need. -/
def guessContentType (p : List String) : String :=
  if (".html".toList).isSuffixOf (p.getLastD "").toList then "text/html"
  else "application/octet-stream"

/-- Modelled from the spec: the body of the base handler's not-found
error page, abstracted to a fixed byte sequence. -/
def notFoundBody : List Nat := [60, 104, 116, 109, 108, 62]

/-- Modelled from the spec: serving a GET request.  The request path is
translated against the server root; a file found at the translated path
is returned with status 200 and its exact bytes, otherwise a not-found
response is produced.  Both outcomes emit their headers through
`respond`, hence through the `end_headers` override. -/
def do_GET (fs : List (List String × List Nat)) (root : List String) (req : String) : Response :=
  match fs.lookup (translate_path root req) with
  | some content =>
      respond 200
        [ ("Content-type", guessContentType (translate_path root req))
        , ("Content-Length", toString content.length) ]
        content
  | none =>
      respond 404
        [ ("Content-Type", "text/html;charset=utf-8")
        , ("Content-Length", toString notFoundBody.length) ]
        notFoundBody

/-- Directory containing a file given by its absolute path (component
list): `os.path.dirname`. -/
def dirname (p : List String) : List String := p.dropLast

/-- `main`, lines 28-50: change into the directory containing the script
(`os.chdir(os.path.dirname(os.path.abspath(__file__)))`, done once at
startup), then serve each incoming request against that directory as
the root. -/
def main_serve (fs : List (List String × List Nat)) (file : List String)
    (reqs : List String) : List Response :=
  let root := dirname file
  reqs.map (fun r => do_GET fs root r)

/-- A Python exception relevant to `main`: a keyboard interrupt or an
`OSError` carrying an errno. -/
inductive PyExc where
  | keyboardInterrupt : PyExc
  | osError : Int → PyExc
deriving DecidableEq

/-- Outcome of `main`: the process exits with a code after printing some
lines, or an exception escapes (is re-raised). -/
inductive MainResult where
  | exitWith : Nat → List String → MainResult
  | raised : PyExc → MainResult
deriving DecidableEq

/-- The shutdown message printed on interrupt (line 52). -/
def shutdownLines : List String := ["\n\n👋 Сервер остановлен"]

/-- The port-conflict diagnostic printed on errno 98/48 (lines 56-59):
an error line naming the port and two numbered remediation suggestions. -/
def portConflictLines (port : Nat) : List String :=
  [ "\n❌ ОШИБКА: Порт " ++ toString port ++ " уже используется!"
  , "\nПопробуйте:"
  , "  1. Остановить другой процесс на порту " ++ toString port
  , "  2. Изменить PORT в скрипте на другой (например, 8080)" ]

/-- The except clauses of `main` (lines 51-62): a `KeyboardInterrupt`
prints the shutdown message and exits 0; an `OSError` with errno 98 or
48 prints the port-conflict diagnostic and exits 1; any other `OSError`
is re-raised. -/
def handleTryException (e : PyExc) : MainResult :=
  match e with
  | .keyboardInterrupt => .exitWith 0 shutdownLines
  | .osError errno =>
      if errno = 98 ∨ errno = 48 then
        .exitWith 1 (portConflictLines PORT)
      else
        .raised (.osError errno)

/-- Point inside the try block (lines 34-50) at which an exception can
arise: while binding the listening socket, while printing the startup
banner, or inside the serve loop. -/
inductive TryPhase where
  | binding : TryPhase
  | banner : TryPhase
  | serving : TryPhase
deriving DecidableEq

/-- An exception raised at any phase of the try block propagates to the
same except clauses of lines 51-62: the handlers wrap the whole block,
so the phase does not influence the outcome. -/
def main_result (_ph : TryPhase) (e : PyExc) : MainResult :=
  handleTryException e

/-- Does the needle occur as a contiguous run inside the haystack? -/
def occursIn (needle : List Char) : List Char → Bool
  | [] => needle.isEmpty
  | c :: cs => needle.isPrefixOf (c :: cs) || occursIn needle cs

/-- Does `needle` occur as a substring of `s`? -/
def mentions (needle s : String) : Bool :=
  occursIn needle.toList s.toList

/-- Is a header pair a content-type header (case-insensitive name)? -/
def isContentTypeHeader (h : String × String) : Bool :=
  h.1.toList.map Char.toLower == "content-type".toList

/-! Helper lemmas -/

theorem sendHeaders_eq (hs : List (String × String)) (s : HandlerState) :
    sendHeaders s hs = ⟨s.headers_buffer ++ hs, s.wfile⟩ := by
  induction hs generalizing s with
  | nil => simp [sendHeaders]
  | cons h t ih =>
      simp only [sendHeaders, List.foldl_cons] at *
      rw [ih]
      simp [send_header]

theorem end_headers_wfile (s : HandlerState) :
    (MyHTTPRequestHandler.end_headers s).wfile =
      s.wfile ++ s.headers_buffer ++ injectedHeaders := by
  simp [MyHTTPRequestHandler.end_headers, base_end_headers, send_header,
    injectedHeaders]

theorem respond_headers (status : Nat) (bs : List (String × String)) (body : List Nat) :
    (respond status bs body).headers = bs ++ injectedHeaders := by
  simp [respond, sendHeaders_eq, end_headers_wfile, initialState]

theorem respond_status (status : Nat) (bs : List (String × String)) (body : List Nat) :
    (respond status bs body).status = status := rfl

theorem respond_body (status : Nat) (bs : List (String × String)) (body : List Nat) :
    (respond status bs body).body = body := rfl

theorem foldl_words_under (ws : List String) (acc : List String) :
    ∃ rest, ws.foldl
      (fun acc word => if word = "" ∨ word = "." ∨ word = ".." then acc else acc ++ [word]) acc
      = acc ++ rest := by
  induction ws generalizing acc with
  | nil => exact ⟨[], by simp⟩
  | cons w t ih =>
      simp only [List.foldl_cons]
      by_cases h : w = "" ∨ w = "." ∨ w = ".."
      · simpa [h] using ih acc
      · obtain ⟨rest, hr⟩ := ih (acc ++ [w])
        exact ⟨w :: rest, by simp [h, hr]⟩

theorem translate_path_under (root : List String) (path : String) :
    ∃ rest, translate_path root path = root ++ rest := by
  unfold translate_path
  exact foldl_words_under _ root

theorem do_GET_of_lookup_none {fs : List (List String × List Nat)}
    {root : List String} {req : String}
    (hl : fs.lookup (translate_path root req) = none) :
    do_GET fs root req =
      respond 404
        [ ("Content-Type", "text/html;charset=utf-8")
        , ("Content-Length", toString notFoundBody.length) ]
        notFoundBody := by
  unfold do_GET
  rw [hl]

theorem do_GET_of_lookup_some {fs : List (List String × List Nat)}
    {root : List String} {req : String} {content : List Nat}
    (hl : fs.lookup (translate_path root req) = some content) :
    do_GET fs root req =
      respond 200
        [ ("Content-type", guessContentType (translate_path root req))
        , ("Content-Length", toString content.length) ]
        content := by
  unfold do_GET
  rw [hl]

/-! Claim theorems -/

/-- Claim C1: every HTTP response the server produces, for any
filesystem, root and request path — hence regardless of status 200 or
404 — carries the three fixed headers with byte-exact values. -/
theorem every_response_carries_fixed_headers (fs : List (List String × List Nat))
    (root : List String) (req : String) :
    ("Access-Control-Allow-Origin", "*") ∈ (do_GET fs root req).headers ∧
    ("Access-Control-Allow-Methods", "GET") ∈ (do_GET fs root req).headers ∧
    ("Cache-Control", "no-store, no-cache, must-revalidate") ∈ (do_GET fs root req).headers := by
  unfold do_GET
  cases fs.lookup (translate_path root req) <;>
    simp [respond_headers, injectedHeaders]

/-- Claim C2: for every response, the final header section is exactly
the base headers followed by the three injected headers — the injected
headers come after all base headers, every base header is unchanged,
and the content-type headers of the result are exactly those of the
base behavior (none is duplicated or overridden). -/
theorem injection_appends_after_base (status : Nat)
    (bs : List (String × String)) (body : List Nat) :
    (respond status bs body).headers = bs ++ injectedHeaders ∧
    ((respond status bs body).headers).filter isContentTypeHeader
      = bs.filter isContentTypeHeader := by
  refine ⟨respond_headers status bs body, ?_⟩
  rw [respond_headers, List.filter_append]
  have h : injectedHeaders.filter isContentTypeHeader = [] := by decide
  simp [h]

/-- Claim C3: on an address-in-use `OSError` (errno 98 or 48) the
program prints a diagnostic naming the port together with two numbered
remediation suggestions and exits with status 1 (non-zero); the result
is a terminal exit, not a retry. -/
theorem port_conflict_diagnoses_and_exits (n : Int) (h : n = 98 ∨ n = 48) :
    handleTryException (.osError n) = .exitWith 1 (portConflictLines PORT) ∧
    (1 : Nat) ≠ 0 ∧
    mentions (toString PORT) ((portConflictLines PORT).headD "") = true ∧
    ("  1. Остановить другой процесс на порту " ++ toString PORT) ∈ portConflictLines PORT ∧
    "  2. Изменить PORT в скрипте на другой (например, 8080)" ∈ portConflictLines PORT := by
  refine ⟨?_, by decide, by decide, by simp [portConflictLines], by simp [portConflictLines]⟩
  simp only [handleTryException]
  rw [if_pos h]

theorem port_conflict_diagnoses_and_exits_witness :
    ((98 : Int) = 98 ∨ (98 : Int) = 48) ∧
    (handleTryException (.osError 98) = .exitWith 1 (portConflictLines PORT) ∧
     (1 : Nat) ≠ 0 ∧
     mentions (toString PORT) ((portConflictLines PORT).headD "") = true ∧
     ("  1. Остановить другой процесс на порту " ++ toString PORT) ∈ portConflictLines PORT ∧
     "  2. Изменить PORT в скрипте на другой (например, 8080)" ∈ portConflictLines PORT) :=
  ⟨Or.inl rfl, port_conflict_diagnoses_and_exits 98 (Or.inl rfl)⟩

/-- Claim C4: a `KeyboardInterrupt` during the serve loop yields the
shutdown message and exit status 0. -/
theorem interrupt_while_serving_is_graceful :
    main_result .serving .keyboardInterrupt
      = .exitWith 0 ["\n\n👋 Сервер остановлен"] := rfl

/-- Claim C5: an `OSError` whose errno is neither 98 nor 48 is
re-raised unchanged, not swallowed and not turned into the
port-conflict diagnostic. -/
theorem other_oserror_is_reraised (n : Int) (h98 : n ≠ 98) (h48 : n ≠ 48) :
    handleTryException (.osError n) = .raised (.osError n) := by
  simp [handleTryException, h98, h48]

theorem other_oserror_is_reraised_witness :
    (10048 : Int) ≠ 98 ∧ (10048 : Int) ≠ 48 ∧
    handleTryException (.osError 10048) = .raised (.osError 10048) :=
  ⟨by decide, by decide, other_oserror_is_reraised 10048 (by decide) (by decide)⟩

/-- Claim C6: the server root is the directory containing the script,
fixed once at startup, and every request in the run is resolved with
that same directory as its base. -/
theorem root_is_script_directory (fs : List (List String × List Nat))
    (file : List String) (reqs : List String) :
    main_serve fs file reqs = reqs.map (fun r => do_GET fs (dirname file) r) := rfl

/-- Claim C7: path resolution is confined to the root: the translated
path always extends the root, and any 200 response's body is the
content stored at a path under the root — never a file outside it. -/
theorem resolution_confined_to_root (fs : List (List String × List Nat))
    (root : List String) (req : String) :
    (∃ rest, translate_path root req = root ++ rest) ∧
    ((do_GET fs root req).status = 200 →
      ∃ rest, fs.lookup (root ++ rest) = some (do_GET fs root req).body) := by
  obtain ⟨rest, hr⟩ := translate_path_under root req
  refine ⟨⟨rest, hr⟩, fun h => ?_⟩
  refine ⟨rest, ?_⟩
  rw [← hr]
  cases hl : fs.lookup (translate_path root req) with
  | none =>
      rw [do_GET_of_lookup_none hl, respond_status] at h
      exact absurd h (by decide)
  | some content =>
      rw [do_GET_of_lookup_some hl, respond_body]

theorem resolution_confined_to_root_witness :
    (do_GET [(["srv", "a.html"], [1, 2, 3])] ["srv"] "/a.html").status = 200 ∧
    ∃ rest, List.lookup (["srv"] ++ rest) [(["srv", "a.html"], [1, 2, 3])]
      = some (do_GET [(["srv", "a.html"], [1, 2, 3])] ["srv"] "/a.html").body :=
  ⟨by decide, (resolution_confined_to_root _ _ _).2 (by decide)⟩

/-- Claim C8: a GET request for a path that resolves to a file present
under the root returns status 200 and the file's bytes unchanged. -/
theorem valid_file_served_exactly (fs : List (List String × List Nat))
    (root : List String) (req : String) (content : List Nat)
    (h : fs.lookup (translate_path root req) = some content) :
    (do_GET fs root req).status = 200 ∧ (do_GET fs root req).body = content := by
  unfold do_GET
  rw [h]
  exact ⟨respond_status _ _ _, respond_body _ _ _⟩

theorem valid_file_served_exactly_witness :
    List.lookup (translate_path ["web"] "/stage8-vfs-demo.html")
      [(["web", "stage8-vfs-demo.html"], [10, 20, 30])] = some [10, 20, 30] ∧
    (do_GET [(["web", "stage8-vfs-demo.html"], [10, 20, 30])] ["web"] "/stage8-vfs-demo.html").status = 200 ∧
    (do_GET [(["web", "stage8-vfs-demo.html"], [10, 20, 30])] ["web"] "/stage8-vfs-demo.html").body = [10, 20, 30] :=
  ⟨by decide, valid_file_served_exactly _ _ _ _ (by decide)⟩

/-- Claim C9: the port-conflict branch fires exactly when the errno is
98 or 48, and in every other case — including the Windows
address-in-use value 10048 — the error is re-raised unchanged. -/
theorem conflict_branch_iff_errno_98_or_48 (n : Int) :
    (handleTryException (.osError n) = .exitWith 1 (portConflictLines PORT)
      ↔ (n = 98 ∨ n = 48)) ∧
    (handleTryException (.osError n) = .raised (.osError n)
      ↔ ¬(n = 98 ∨ n = 48)) := by
  by_cases h : n = 98 ∨ n = 48 <;> simp [handleTryException, h]

theorem conflict_branch_iff_errno_98_or_48_witness :
    handleTryException (.osError 10048) = .raised (.osError 10048) :=
  (conflict_branch_iff_errno_98_or_48 10048).2.mpr (by decide)

/-- Claim C10: a `KeyboardInterrupt` arising at any phase of the try
block — binding, printing the banner, or serving — reaches the same
except clause, prints the shutdown message, and exits with status 0. -/
theorem interrupt_any_phase_exits_zero (ph : TryPhase) :
    main_result ph .keyboardInterrupt
      = .exitWith 0 ["\n\n👋 Сервер остановлен"] := by
  cases ph <;> rfl
